import Mathlib

/-!
Verification of the Mermaideer diagram editor
(`src/components/MermaidDiagramMaker.tsx`, the current "Mermaideer"
version of the component; the two older versions concatenated in the
same file are historical context).

The definitions below are a shallow embedding of the orchestration
logic of that component: the debounced render scheduler, the render
failure handler, the AI completion client, the export pipeline, and
the pan/zoom viewport controller.  External services (the mermaid
renderer, `fetch`, `JSON.parse`, `html2canvas`, the DOM) are modelled
as explicit environment parameters.
-/

namespace Mermaideer

/-! ## JavaScript string primitives

The component uses `String.prototype.trim`, `startsWith` and `slice`.
JavaScript strings are sequences of characters indexed by position, so
these are modelled executably over the character list `String.data`
(the byte-position based core `String.trim` etc. do not reduce in the
kernel, but are extensionally the same operations). -/

/-- JavaScript `s.trim()`: remove leading and trailing whitespace. -/
def jsTrim (s : String) : String :=
  ⟨((s.data.dropWhile Char.isWhitespace).reverse.dropWhile Char.isWhitespace).reverse⟩

/-- JavaScript `s.startsWith(pre)`. -/
def jsStartsWith (s pre : String) : Bool :=
  pre.data.isPrefixOf s.data

/-- JavaScript `s.slice(n)` (drop the first `n` characters). -/
def jsDrop (s : String) (n : Nat) : String :=
  ⟨s.data.drop n⟩

/-- `interface ErrorState { hasError: boolean; message: string }`. -/
structure ErrorState where
  hasError : Bool
  message : String
deriving DecidableEq, Repr

/-! ## Render scheduler (debounce) model

The component schedules `renderDiagram` with `setTimeout(renderDiagram, 300)`
each time `mermaidCode` (or the theme) changes, and the effect cleanup
`clearTimeout`s the previously scheduled call.  We model a session as a
time-ordered list of edit events `(t, source)`.  A pending timer is a
`(deadline, capturedSource)` pair; an edit first lets a timer whose
deadline has already passed fire (the browser runs the callback at its
deadline), then replaces the pending timer with a new one `300` ms out,
capturing the new source.  `calls` records the arguments of the actual
`mermaid.render` invocations: the fire time (the `Date.now()` reading of
the callback, which in this timed model is the deadline) and the source.
`renderDiagram` only calls the renderer when the captured source has a
non-empty trim (`if (diagramRef.current && mermaidCode.trim())`); we take
the component as mounted, so only the trim guard remains. -/

structure SchedState where
  pending : Option (Nat × String)
  calls : List (Nat × String)
deriving DecidableEq, Repr

/-- Fire the pending debounced render if its deadline has passed by time
`t`: the renderer is invoked with the captured source unless that source
is blank. -/
def fireIfDue (st : SchedState) (t : Nat) : SchedState :=
  match st.pending with
  | none => st
  | some (d, ps) =>
    if d ≤ t then
      { pending := none
        calls := st.calls ++ (if jsTrim ps = "" then [] else [(d, ps)]) }
    else st

/-- Process one edit of `mermaidCode` at time `t`: a due timer has fired
before the edit is handled; the cleanup cancels any still-pending timer
and a fresh 300 ms timer capturing the new source is scheduled. -/
def applyEdit (st : SchedState) (t : Nat) (s : String) : SchedState :=
  let st' := fireIfDue st t
  { st' with pending := some (t + 300, s) }

/-- Process a list of edits in order. -/
def runEdits (st : SchedState) : List (Nat × String) → SchedState
  | [] => st
  | (t, s) :: rest => runEdits (applyEdit st t s) rest

/-- A whole session: process the edits, then let the clock run to `tEnd`
so that a last pending timer whose deadline is reached fires. -/
def runSession (edits : List (Nat × String)) (tEnd : Nat) : SchedState :=
  fireIfDue (runEdits ⟨none, []⟩ edits) tEnd

/-- `burstB edits = true` when every edit after the first arrives before
the previous edit's 300 ms debounce deadline, i.e. the whole list is one
debounce burst. -/
def burstB : List (Nat × String) → Bool
  | [] => true
  | [_] => true
  | (t, _) :: (t', s') :: rest =>
    decide (t' < t + 300) && burstB ((t', s') :: rest)

/-- A terminal render outcome: `mermaid.render` either resolves with the
svg markup or rejects. -/
inductive RenderResult where
  | success (artifact : String)
  | failure (message : String)
deriving DecidableEq, Repr

/-- The terminal render results of a session, given the external
renderer's behaviour `oracle` on each submitted source: each actual
`mermaid.render` call produces exactly one result (the `await` either
resolves into the success branch or rejects into the catch branch). -/
def renderResults (oracle : String → RenderResult) (st : SchedState) :
    List RenderResult :=
  st.calls.map fun c => oracle c.2

/-! ## One render firing (`renderDiagram`, lines 800–834)

When the debounced `renderDiagram` fires for a non-blank source, it
clears the error state, empties the target element, and awaits
`mermaid.render`.  On resolution the svg markup is installed; on
rejection the catch block derives a message (`error instanceof Error ?
error.message : 'Invalid Mermaid syntax'`), stores it in the error
state and installs a placeholder.  `mermaidCode` itself is never
written by this effect. -/

/-- A JavaScript thrown value, as the catch block inspects it:
whether it is an `Error` instance, and its `message`. -/
structure JsError where
  isError : Bool
  message : String
deriving DecidableEq, Repr

/-- `error instanceof Error ? error.message : 'Invalid Mermaid syntax'`. -/
def renderErrorMessage (e : JsError) : String :=
  if e.isError then e.message else "Invalid Mermaid syntax"

/-- The error placeholder markup installed in place of the diagram
(template literal at lines 822–830). -/
def errorPlaceholder (errorMessage : String) : String :=
  "\n              <div class=\"flex items-center justify-center h-full text-destructive\">\n                <div class=\"text-center\">\n                  <AlertCircle class=\"mx-auto mb-2 h-8 w-8\" />\n                  <p class=\"font-medium\">Diagram Error</p>\n                  <p class=\"text-sm text-muted-foreground mt-1\">"
    ++ errorMessage ++
    "</p>\n                </div>\n              </div>\n            "

/-- The component state touched by one `renderDiagram` firing. -/
structure RenderState where
  mermaidCode : String
  error : ErrorState
  dom : String
deriving DecidableEq, Repr

/-- One `renderDiagram` firing.  `attempt` is the external renderer's
behaviour on this source: `.ok svg` when the promise resolves, `.error e`
when it rejects with the thrown value `e`. -/
def renderFire (attempt : Except JsError String) (st : RenderState) :
    RenderState :=
  if jsTrim st.mermaidCode = "" then st
  else
    match attempt with
    | .ok svg => { st with error := ⟨false, ""⟩, dom := svg }
    | .error e =>
      let errorMessage := renderErrorMessage e
      { st with
          error := ⟨true, errorMessage⟩
          dom := errorPlaceholder errorMessage }

/-- `` `mermaid-diagram-${Date.now()}` ``: the render-target identifier,
built from the millisecond clock reading at the firing. -/
def mkDiagramId (now : Nat) : String :=
  "mermaid-diagram-" ++ Nat.repr now

/-- Decimal digit list of a natural number (proof helper used to show
that `Nat.repr`, hence `mkDiagramId`, is injective). -/
def natDigits (n : Nat) : List Char :=
  if _h : n < 10 then [Nat.digitChar n]
  else natDigits (n / 10) ++ [Nat.digitChar (n % 10)]
termination_by n
decreasing_by exact Nat.div_lt_self (by omega) (by omega)

/-! ## AI completion client (`generateDiagramWithAI`, lines 860–1022) -/

/-- The four AI providers. -/
inductive Provider where
  | openai
  | anthropic
  | gemini
  | openrouter
deriving DecidableEq, Repr

/-- One chat message of a request body. -/
structure Msg where
  role : String
  content : String
deriving DecidableEq, Repr

/-- The provider-specific request body shapes (textual payload fields;
constant numeric fields `max_tokens`/`temperature` are carried only
where a claim could touch them).  `chatShape` is the
`messages`-array shape used by openai and openrouter (with its
`stream` flag), `anthropicShape` keeps `system` separate from
`messages`, and `geminiShape` is the single content-parts array. -/
inductive ReqBody where
  | chatShape (model : String) (messages : List Msg) (stream : Bool)
  | anthropicShape (model : String) (system : String) (messages : List Msg)
  | geminiShape (texts : List String)
deriving DecidableEq, Repr

/-- An HTTP request as the switch at lines 897–954 builds it. -/
structure Request where
  url : String
  headers : List (String × String)
  body : ReqBody
  useStream : Bool
deriving DecidableEq, Repr

/-- The fixed system instruction (template literal at lines 883–888). -/
def systemPrompt : String :=
  "You are a helpful assistant that generates Mermaid.js diagram code. Follow these rules:\n              1. Always respond with valid Mermaid syntax only, no explanations or markdown formatting\n              2. Use intelligent auto layout with proper spacing and styling\n              3. Add classDef styling for better visual appeal\n              4. Use meaningful node names and clear connections\n              5. Focus on creating clear, well-structured diagrams with good visual hierarchy"

/-- The `switch (provider)` of `generateDiagramWithAI`: endpoint url,
headers, body and streaming flag per provider.  Note the gemini body:
the template literal at line 916 is the bare string `"\n"` — it
interpolates neither the system instruction nor the prompt. -/
def buildRequest (provider : Provider) (apiKey prompt : String) : Request :=
  match provider with
  | .anthropic =>
    { url := "https://api.anthropic.com/v1/messages"
      headers := [("Content-Type", "application/json"),
                  ("x-api-key", apiKey),
                  ("anthropic-version", "2023-06-01")]
      body := .anthropicShape "claude-3-opus-20240229" systemPrompt
                [⟨"user", prompt⟩]
      useStream := false }
  | .gemini =>
    { url := "https://generativelanguage.googleapis.com/v1beta/models/gemini-pro:generateContent?key="
               ++ apiKey
      headers := [("Content-Type", "application/json")]
      body := .geminiShape ["\n"]
      useStream := false }
  | .openrouter =>
    { url := "https://openrouter.ai/api/v1/chat/completions"
      headers := [("Content-Type", "application/json"),
                  ("Authorization", "Bearer " ++ apiKey)]
      body := .chatShape "openrouter/auto"
                [⟨"system", systemPrompt⟩, ⟨"user", prompt⟩] false
      useStream := false }
  | .openai =>
    { url := "https://api.openai.com/v1/chat/completions"
      headers := [("Content-Type", "application/json"),
                  ("Authorization", "Bearer " ++ apiKey)]
      body := .chatShape "gpt-4"
                [⟨"system", systemPrompt⟩, ⟨"user", prompt⟩] true
      useStream := true }

/-- All textual payload fields of a request body. -/
def bodyTexts : ReqBody → List String
  | .chatShape _ messages _ => messages.map Msg.content
  | .anthropicShape _ system messages => system :: messages.map Msg.content
  | .geminiShape texts => texts

/-- Whether `needle` occurs as a contiguous sublist of the second
list. -/
def containsSeq (needle : List Char) : List Char → Bool
  | [] => needle.isEmpty
  | c :: rest => needle.isPrefixOf (c :: rest) || containsSeq needle rest

/-- Whether some textual payload field of the body contains `s` as a
substring. -/
def bodyMentions (b : ReqBody) (s : String) : Bool :=
  (bodyTexts b).any fun t => containsSeq s.data t.data

/-- `data.….trim() || ''`: the buffered response-extraction contract.
`extracted` is the provider-path lookup from the parsed JSON (`none`
when a field is missing). -/
def parsedText (extracted : Option String) : String :=
  match extracted with
  | none => ""
  | some s => jsTrim s

/-- How a streamed response body ends: the reader reaches `done`, or a
read rejects (network failure mid-stream). -/
inductive StreamTerminal where
  | done
  | readError (msg : String)
deriving DecidableEq, Repr

/-- A streamed response body: the decoded chunks that were delivered
(each already split into lines, as `chunk.split('\n')` does), and how
reading ends afterwards. -/
structure StreamBody where
  chunks : List (List String)
  terminal : StreamTerminal
deriving DecidableEq, Repr

/-- An HTTP response for the `fetch` call at lines 956–960. -/
inductive FetchOutcome where
  /-- `fetch` itself rejects (network-level failure). -/
  | netError (msg : String)
  /-- `!response.ok`: non-success status; `errMsg` is
  `errorData.error?.message` from the error payload, when present. -/
  | httpError (status : Nat) (errMsg : Option String)
  /-- Success status.  `streamBody` is `response.body` (`none` when
  null); `extracted` is what the provider-specific `parseResponse`
  path lookup would find in `response.json()`. -/
  | success (streamBody : Option StreamBody) (extracted : Option String)
deriving DecidableEq, Repr

/-- The environment of one generation call: the network's behaviour and
`JSON.parse`-plus-extraction for SSE data records. `parseDelta s` is
`JSON.parse(s).choices?.[0]?.delta?.content || ''` — `none` when
`JSON.parse` throws (the catch ignores the record), `some text`
otherwise (`text` may be empty). -/
structure GenEnv where
  fetch : FetchOutcome
  parseDelta : String → Option String

/-- Component state touched by `generateDiagramWithAI`. -/
structure GenState where
  mermaidCode : String
  aiPrompt : String
  error : ErrorState
deriving DecidableEq, Repr

/-- The error thrown (and then caught) inside the try block, by throw
site. -/
inductive GenError where
  /-- `` throw new Error(`API Error: ...`) `` on `!response.ok`. -/
  | apiError (status : Nat) (msg : String)
  /-- `throw new Error('No diagram code generated')` on an empty
  buffered completion. -/
  | noCodeGenerated
  /-- The `fetch` call itself rejected. -/
  | fetchFailed (msg : String)
  /-- A `reader.read()` rejected mid-stream. -/
  | streamReadFailed (msg : String)
deriving DecidableEq, Repr

/-- Overall outcome of one `generateDiagramWithAI` call. -/
inductive GenOutcome where
  /-- Early return: blank API key (credential prompt shown, no fetch). -/
  | missingKey
  /-- Early return: blank prompt (no fetch). -/
  | emptyPrompt
  /-- The catch block ran for the given error. -/
  | errored (e : GenError)
  /-- The success toast was shown. -/
  | succeeded
deriving DecidableEq, Repr

/-- The catch block: `setError({ hasError: true, message:
`` `AI Generation Failed: ${errorMessage}` `` })`. -/
def applyCatch (st : GenState) (msg : String) : GenState :=
  { st with error := ⟨true, "AI Generation Failed: " ++ msg⟩ }

/-- The inner `for (const line of lines)` loop of the streaming branch
(lines 976–989): accumulate deltas into `result` and
`setMermaidCode(result)` after each parsed record; `[DONE]` breaks out
of the lines of this chunk; JSON parse failures are ignored.  Returns
the updated `(result, mermaidCode)`. -/
def processLines (parseDelta : String → Option String) :
    List String → String → String → String × String
  | [], acc, code => (acc, code)
  | line :: rest, acc, code =>
    if jsStartsWith line "data: " then
      let dataStr := jsTrim (jsDrop line 6)
      if dataStr = "[DONE]" then (acc, code)
      else
        match parseDelta dataStr with
        | some text => processLines parseDelta rest (acc ++ text) (acc ++ text)
        | none => processLines parseDelta rest acc code
    else processLines parseDelta rest acc code

/-- The outer `while (true)` read loop over the delivered chunks.
Returns the final `(result, mermaidCode)`. -/
def runStream (parseDelta : String → Option String) (code0 : String)
    (chunks : List (List String)) : String × String :=
  chunks.foldl (fun p lines => processLines parseDelta lines p.1 p.2)
    ("", code0)

/-- `generateDiagramWithAI(promptOverride?)`: guard on a blank key, guard
on a blank prompt, clear the error, build the provider request, perform
the fetch, then either run the streaming loop (openai, when
`response.body` is non-null) or the buffered parse with its empty-code
check; all throws land in the catch block. -/
def generateDiagramWithAI (provider : Provider) (apiKey : String)
    (promptOverride : Option String) (env : GenEnv) (st : GenState) :
    GenState × GenOutcome :=
  if jsTrim apiKey = "" then (st, .missingKey)
  else
    let prompt := promptOverride.getD st.aiPrompt
    if jsTrim prompt = "" then (st, .emptyPrompt)
    else
      let st := { st with error := ⟨false, ""⟩ }
      let req := buildRequest provider apiKey prompt
      match env.fetch with
      | .netError msg => (applyCatch st msg, .errored (.fetchFailed msg))
      | .httpError status errMsg =>
        let m := "API Error: " ++ Nat.repr status ++ " - "
                   ++ errMsg.getD "Unknown error"
        (applyCatch st m, .errored (.apiError status (errMsg.getD "Unknown error")))
      | .success streamBody extracted =>
        match req.useStream, streamBody with
        | true, some sb =>
          let p := runStream env.parseDelta st.mermaidCode sb.chunks
          match sb.terminal with
          | .readError msg =>
            (applyCatch { st with mermaidCode := p.2 } msg,
              .errored (.streamReadFailed msg))
          | .done =>
            ({ st with mermaidCode := p.2, aiPrompt := "" }, .succeeded)
        | _, _ =>
          let generatedCode := parsedText extracted
          if generatedCode = "" then
            (applyCatch st "No diagram code generated",
              .errored .noCodeGenerated)
          else
            ({ st with mermaidCode := generatedCode, aiPrompt := "" },
              .succeeded)

/-! ## Export pipeline (`downloadDiagram`, lines 1054–1131) -/

/-- Export formats. -/
inductive ExpFormat where
  | svg
  | png
  | pdf
deriving DecidableEq, Repr

/-- A produced download. -/
inductive ExportFile where
  | svgFile (markup : String)
  | pngFile
  | pdfFile
deriving DecidableEq, Repr

/-- The environment of one export: whether the two refs are non-null
(they are whenever the component is mounted — they do not record
whether a render ever succeeded), the serialized markup of an `svg`
child when one exists, and whether `html2canvas` resolves. -/
structure ExportEnv where
  refsPresent : Bool
  svgMarkup : Option String
  rasterOk : Bool
deriving DecidableEq, Repr

/-- Observable outcome of `downloadDiagram`: the files produced, whether
the "Download Failed" toast was shown, the transform in force during the
try block (`none` when the early return never touched it), and the
transform after the call (the `finally` block restores
`prevTransform`). -/
structure ExportRun where
  files : List ExportFile
  failureNotice : Bool
  transformDuring : Option String
  transformFinal : String
deriving DecidableEq, Repr

/-- `downloadDiagram(format)`: guard on null refs; save `prevTransform`
and set `transform = 'translate(0px, 0px)'`; produce the file per
format (an svg export with no `svg` child silently produces nothing, a
raster failure throws into the catch); `finally` restores the saved
transform. -/
def downloadDiagram (format : ExpFormat) (env : ExportEnv)
    (transform0 : String) : ExportRun :=
  if env.refsPresent = false then
    { files := [], failureNotice := true
      transformDuring := none, transformFinal := transform0 }
  else
    let during := "translate(0px, 0px)"
    match format with
    | .svg =>
      { files := match env.svgMarkup with
          | some markup => [.svgFile markup]
          | none => []
        failureNotice := false
        transformDuring := some during, transformFinal := transform0 }
    | .png =>
      if env.rasterOk then
        { files := [.pngFile], failureNotice := false
          transformDuring := some during, transformFinal := transform0 }
      else
        { files := [], failureNotice := true
          transformDuring := some during, transformFinal := transform0 }
    | .pdf =>
      if env.rasterOk then
        { files := [.pdfFile], failureNotice := false
          transformDuring := some during, transformFinal := transform0 }
      else
        { files := [], failureNotice := true
          transformDuring := some during, transformFinal := transform0 }

/-! ## Viewport controller (lines 1173–1202, 1397–1401) -/

/-- `{ offset: {x, y}, scale }`, the pan/zoom viewport state. -/
structure Viewport where
  offsetX : ℚ
  offsetY : ℚ
  scale : ℚ
deriving DecidableEq, Repr

/-- A width/height pair, as `getBoundingClientRect()` delivers it. -/
structure Bounds where
  width : ℚ
  height : ℚ
deriving DecidableEq, Repr

/-- The inline style `` `translate(${offset.x}px, ${offset.y}px)
scale(${scale})` `` applied to the diagram element (line 1400). -/
def transformStr (x y s : ℚ) : String :=
  "translate(" ++ toString x ++ "px, " ++ toString y ++ "px) scale("
    ++ toString s ++ ")"

/-- `centerDiagram()` with the scale value `scale` captured by its
closure: sets `offset = ((container - rect * scale) / 2, …)`. -/
def centerDiagram (cont rect : Bounds) (scale : ℚ) (v : Viewport) :
    Viewport :=
  { v with
      offsetX := (cont.width - rect.width * scale) / 2
      offsetY := (cont.height - rect.height * scale) / 2 }

/-- `resetView()`: `setScale(1)` commits a scale of 1, then
`setTimeout(centerDiagram, 0)` runs the `centerDiagram` closure of the
render in which `resetView` was invoked — whose captured `scale` is the
value *before* the reset, `v.scale`. -/
def resetView (cont rect : Bounds) (v : Viewport) : Viewport :=
  centerDiagram cont rect v.scale { v with scale := 1 }

/-! # Theorems -/

/-- Within a burst, every edit merely replaces the pending timer: no
render fires and the last edit's timer survives, its calls untouched. -/
theorem runEdits_burst (rest : List (Nat × String)) :
    ∀ (t : Nat) (s : String) (calls : List (Nat × String)),
      burstB ((t, s) :: rest) = true →
      runEdits ⟨some (t + 300, s), calls⟩ rest =
        ⟨some ((rest.getLastD (t, s)).1 + 300, (rest.getLastD (t, s)).2),
          calls⟩ := by
  induction rest with
  | nil => intro t s calls _; rfl
  | cons e rest ih =>
    obtain ⟨t', s'⟩ := e
    intro t s calls h
    simp only [burstB, Bool.and_eq_true, decide_eq_true_eq] at h
    obtain ⟨hlt, hb⟩ := h
    have happ : applyEdit ⟨some (t + 300, s), calls⟩ t' s' =
        ⟨some (t' + 300, s'), calls⟩ := by
      simp [applyEdit, fireIfDue, if_neg (by omega : ¬ t + 300 ≤ t')]
    rw [runEdits, happ, ih t' s' calls hb, List.getLastD_cons]

/-- C1 (amended: the submitted sources must be renderable, i.e. the last
one non-blank — a blank source never reaches the external renderer):
for any burst of schedule calls each arriving inside the previous call's
300 ms window, once the window of the last call elapses the external
renderer is invoked exactly once, and its source argument is the last
submitted source; superseded intermediate sources are never rendered. -/
theorem debounce_last_wins (t1 : Nat) (s1 : String)
    (rest : List (Nat × String)) (tEnd : Nat)
    (hburst : burstB ((t1, s1) :: rest) = true)
    (hblank : jsTrim (rest.getLastD (t1, s1)).2 ≠ "")
    (hend : (rest.getLastD (t1, s1)).1 + 300 ≤ tEnd) :
    (runSession ((t1, s1) :: rest) tEnd).calls =
      [((rest.getLastD (t1, s1)).1 + 300, (rest.getLastD (t1, s1)).2)] := by
  have h0 : runEdits ⟨none, []⟩ ((t1, s1) :: rest)
      = runEdits ⟨some (t1 + 300, s1), []⟩ rest := rfl
  unfold runSession
  rw [h0, runEdits_burst rest t1 s1 [] hburst]
  simp only [fireIfDue]
  rw [if_pos hend, if_neg hblank]
  simp

/-- C1 witness: two schedule calls 100 ms apart collapse to one render
of the second source, fired at its 300 ms deadline. -/
theorem debounce_last_wins_witness :
    (runSession [(0, "graph TD"), (100, "graph LR")] 1000).calls
      = [(400, "graph LR")] :=
  debounce_last_wins 0 "graph TD" [(100, "graph LR")] 1000
    (by decide) (by decide) (by decide)

/-- C1 counterexample: the claim quantifies over *every* source text,
but for the whitespace-only source `" "` two schedule calls in
immediate succession produce zero calls to the external renderer, not
exactly one — `renderDiagram` skips blank sources. -/
theorem blank_burst_renders_nothing :
    (runSession [(0, " "), (100, " ")] 1000).calls = [] ∧
    (runSession [(0, " "), (100, " ")] 1000).calls.length ≠ 1 := by
  decide

/-- C3 (amended: a change to a non-blank value produces, once its 300 ms
window elapses undisturbed, exactly one terminal RenderResult — success
or failure, whichever the external renderer returns; a change to a blank
value produces none). -/
theorem change_single_render_result (t : Nat) (s : String) (tEnd : Nat)
    (oracle : String → RenderResult)
    (hblank : jsTrim s ≠ "") (hend : t + 300 ≤ tEnd) :
    renderResults oracle (runSession [(t, s)] tEnd) = [oracle s] := by
  simp [renderResults, runSession, runEdits, applyEdit, fireIfDue,
    hend, hblank]

/-- C3 witness: a single edit to `"graph TD"` yields exactly one
terminal result for that value. -/
theorem change_single_render_result_witness :
    renderResults (fun s => RenderResult.success s)
      (runSession [(5, "graph TD")] 400)
      = [RenderResult.success "graph TD"] :=
  change_single_render_result 5 "graph TD" 400
    (fun s => RenderResult.success s) (by decide) (by decide)

/-- C3 counterexample: the claim includes changes to an empty or
whitespace-only string, but a change to `""` produces zero terminal
render results (the renderer is never invoked), not exactly one. -/
theorem blank_change_no_render_result :
    renderResults (fun s => RenderResult.success s)
      (runSession [(5, "")] 999) = [] ∧
    (renderResults (fun s => RenderResult.success s)
      (runSession [(5, "")] 999)).length ≠ 1 := by
  decide

/-- C2 (amended: the message is non-empty whenever the rejection value
is either not an `Error` instance — then the generic
`'Invalid Mermaid syntax'` fallback is used — or an `Error` whose
`message` is non-empty; the fallback is *not* applied to an `Error`
carrying an empty message): a failed render sets the error state active
with a non-empty message and leaves the diagram source unchanged. -/
theorem render_failure_sets_error (st : RenderState) (e : JsError)
    (hcode : jsTrim st.mermaidCode ≠ "")
    (hmsg : e.isError = false ∨ e.message ≠ "") :
    (renderFire (.error e) st).error.hasError = true ∧
    (renderFire (.error e) st).error.message ≠ "" ∧
    (renderFire (.error e) st).mermaidCode = st.mermaidCode := by
  have hfire : renderFire (.error e) st =
      { st with
          error := ⟨true, renderErrorMessage e⟩
          dom := errorPlaceholder (renderErrorMessage e) } := by
    unfold renderFire
    rw [if_neg hcode]
  rw [hfire]
  refine ⟨rfl, ?_, rfl⟩
  unfold renderErrorMessage
  rcases hmsg with h | h
  · rw [h]
    simp
  · by_cases hb : e.isError
    · simpa [hb] using h
    · simp [hb]

/-- C2 witness: a render rejecting with a real diagnostic `Error` sets
an active, non-empty error state and keeps the failing source. -/
theorem render_failure_sets_error_witness :
    (renderFire (.error ⟨true, "Parse error on line 2"⟩)
      ⟨"graph TD\nA--", ⟨false, ""⟩, ""⟩).error.hasError = true ∧
    (renderFire (.error ⟨true, "Parse error on line 2"⟩)
      ⟨"graph TD\nA--", ⟨false, ""⟩, ""⟩).error.message ≠ "" ∧
    (renderFire (.error ⟨true, "Parse error on line 2"⟩)
      ⟨"graph TD\nA--", ⟨false, ""⟩, ""⟩).mermaidCode = "graph TD\nA--" :=
  render_failure_sets_error ⟨"graph TD\nA--", ⟨false, ""⟩, ""⟩
    ⟨true, "Parse error on line 2"⟩ (by decide) (Or.inr (by decide))

/-- C2 counterexample: when the renderer rejects with an `Error`
instance carrying an empty `message`, the error state becomes active
with an *empty* message — the claimed "falling back to a generic
invalid-syntax message when the external error carries no message" does
not happen for such a rejection, so the message is not non-empty. -/
theorem render_failure_empty_message :
    (renderFire (.error ⟨true, ""⟩)
      ⟨"graph TD\nA--", ⟨false, ""⟩, ""⟩).error.hasError = true ∧
    (renderFire (.error ⟨true, ""⟩)
      ⟨"graph TD\nA--", ⟨false, ""⟩, ""⟩).error.message = "" := by
  decide

/-- C4: evaluating `downloadDiagram` at the failing input — component
mounted (both refs non-null), no render ever succeeded (no `svg`
child), PNG export: a PNG file *is* produced from the empty container
and no failure is reported, contradicting the contracted `NoArtifact`
failure. -/
theorem export_without_artifact_produces_png :
    (downloadDiagram .png ⟨true, none, true⟩
      "translate(3px, 4px) scale(1)").files = [.pngFile] ∧
    (downloadDiagram .png ⟨true, none, true⟩
      "translate(3px, 4px) scale(1)").failureNotice = false := by
  decide

/-- C8 (amended: during rasterization the *entire* transform — pan and
zoom alike — is replaced by the zero translation `'translate(0px,
0px)'`, so the zoom scale component is not preserved but reset; the
prior transform is restored on every exit path, including when the
export throws). -/
theorem export_transform_zeroed_and_restored (format : ExpFormat)
    (env : ExportEnv) (transform0 : String) :
    (downloadDiagram format env transform0).transformFinal = transform0 ∧
    (env.refsPresent = true →
      (downloadDiagram format env transform0).transformDuring
        = some "translate(0px, 0px)") := by
  cases format <;> by_cases hr : env.rasterOk <;>
    by_cases hp : env.refsPresent <;>
      simp [downloadDiagram, hr, hp]

/-- C8 witness: a failing PDF export (raster throws) still restores the
prior transform, and the transform during the attempt was the zero
translation. -/
theorem export_transform_zeroed_and_restored_witness :
    (downloadDiagram .pdf ⟨true, some "<svg/>", false⟩
      "translate(5px, 7px) scale(2)").transformFinal
        = "translate(5px, 7px) scale(2)" ∧
    (downloadDiagram .pdf ⟨true, some "<svg/>", false⟩
      "translate(5px, 7px) scale(2)").transformDuring
        = some "translate(0px, 0px)" :=
  ⟨(export_transform_zeroed_and_restored .pdf ⟨true, some "<svg/>", false⟩
      "translate(5px, 7px) scale(2)").1,
   (export_transform_zeroed_and_restored .pdf ⟨true, some "<svg/>", false⟩
      "translate(5px, 7px) scale(2)").2 rfl⟩

/-- C8 counterexample: with a prior transform of pan `(5, 7)` and zoom
scale `2`, the transform in force during rasterization is the bare
`'translate(0px, 0px)'`, not the claimed pan-zeroed, scale-preserving
`'translate(0px, 0px) scale(2)'`. -/
theorem export_drops_scale_component :
    (downloadDiagram .png ⟨true, none, true⟩
      (transformStr 5 7 2)).transformDuring ≠ some (transformStr 0 0 2) ∧
    (downloadDiagram .png ⟨true, none, true⟩
      (transformStr 5 7 2)).transformDuring
        = some "translate(0px, 0px)" := by
  decide

/-- C9 (amended: because the rescheduled `centerDiagram` closure
recenters with the scale captured *before* the reset, `resetView` is
idempotent only from the second application on — the double application
equals the triple application for every start state, and calling twice
equals calling once when the starting scale is already 1). -/
theorem resetView_eventually_idempotent (cont rect : Bounds)
    (v : Viewport) :
    resetView cont rect (resetView cont rect (resetView cont rect v))
      = resetView cont rect (resetView cont rect v) ∧
    (v.scale = 1 →
      resetView cont rect (resetView cont rect v)
        = resetView cont rect v) := by
  refine ⟨rfl, fun h1 => ?_⟩
  simp [resetView, centerDiagram, h1]

/-- C9 witness: from a start state already at scale 1, a second
`resetView` changes nothing. -/
theorem resetView_eventually_idempotent_witness :
    resetView ⟨100, 100⟩ ⟨10, 10⟩
        (resetView ⟨100, 100⟩ ⟨10, 10⟩
          (resetView ⟨100, 100⟩ ⟨10, 10⟩ ⟨3, 4, 1⟩))
      = resetView ⟨100, 100⟩ ⟨10, 10⟩
          (resetView ⟨100, 100⟩ ⟨10, 10⟩ ⟨3, 4, 1⟩) ∧
    resetView ⟨100, 100⟩ ⟨10, 10⟩
        (resetView ⟨100, 100⟩ ⟨10, 10⟩ ⟨3, 4, 1⟩)
      = resetView ⟨100, 100⟩ ⟨10, 10⟩ ⟨3, 4, 1⟩ :=
  ⟨(resetView_eventually_idempotent ⟨100, 100⟩ ⟨10, 10⟩ ⟨3, 4, 1⟩).1,
   (resetView_eventually_idempotent ⟨100, 100⟩ ⟨10, 10⟩ ⟨3, 4, 1⟩).2 rfl⟩

/-- C9 counterexample: starting at scale 2 (container 100×100, artifact
10×10), one `resetView` recenters with the stale scale 2 giving offset
(40, 40), while a second `resetView` recenters with scale 1 giving
(45, 45) — calling twice does not equal calling once. -/
theorem resetView_twice_differs :
    resetView ⟨100, 100⟩ ⟨10, 10⟩
        (resetView ⟨100, 100⟩ ⟨10, 10⟩ ⟨0, 0, 2⟩)
      ≠ resetView ⟨100, 100⟩ ⟨10, 10⟩ ⟨0, 0, 2⟩ := by
  simp only [resetView, centerDiagram, ne_eq, Viewport.mk.injEq]
  norm_num

/-- C5 (amended: a generation failure on any non-streaming path — HTTP
error, empty buffered completion, transport failure of the `fetch`
itself, or the early guards — leaves the diagram source unchanged; only
a mid-stream read failure does not, because the streaming loop has
already written each received delta into the source). -/
theorem nonstream_failure_preserves_source (provider : Provider)
    (apiKey : String) (promptOverride : Option String) (env : GenEnv)
    (st : GenState) (e : GenError)
    (hout : (generateDiagramWithAI provider apiKey promptOverride env st).2
      = .errored e)
    (hnot : ∀ msg, e ≠ .streamReadFailed msg) :
    (generateDiagramWithAI provider apiKey promptOverride env st).1.mermaidCode
      = st.mermaidCode := by
  by_cases hk : jsTrim apiKey = ""
  · simp [generateDiagramWithAI, hk] at hout
  · by_cases hp : jsTrim (promptOverride.getD st.aiPrompt) = ""
    · simp [generateDiagramWithAI, hk, hp] at hout
    · rcases hfetch : env.fetch with msg | ⟨status, errMsg⟩ | ⟨sb, ex⟩
      · simp [generateDiagramWithAI, hk, hp, hfetch, applyCatch]
      · simp [generateDiagramWithAI, hk, hp, hfetch, applyCatch]
      · by_cases he : parsedText ex = ""
        · cases provider with
          | openai =>
            rcases sb with _ | sb
            · simp [generateDiagramWithAI, buildRequest, hk, hp, hfetch,
                he, applyCatch]
            · rcases hterm : sb.terminal with _ | msg
              · simp [generateDiagramWithAI, buildRequest, hk, hp, hfetch,
                  hterm] at hout
              · exact absurd (by
                  simpa [generateDiagramWithAI, buildRequest, hk, hp,
                    hfetch, hterm] using hout.symm) (hnot msg)
          | anthropic =>
            simp [generateDiagramWithAI, buildRequest, hk, hp, hfetch,
              he, applyCatch]
          | gemini =>
            simp [generateDiagramWithAI, buildRequest, hk, hp, hfetch,
              he, applyCatch]
          | openrouter =>
            simp [generateDiagramWithAI, buildRequest, hk, hp, hfetch,
              he, applyCatch]
        · cases provider with
          | openai =>
            rcases sb with _ | sb
            · simp [generateDiagramWithAI, buildRequest, hk, hp, hfetch,
                he] at hout
            · rcases hterm : sb.terminal with _ | msg
              · simp [generateDiagramWithAI, buildRequest, hk, hp, hfetch,
                  hterm] at hout
              · exact absurd (by
                  simpa [generateDiagramWithAI, buildRequest, hk, hp,
                    hfetch, hterm] using hout.symm) (hnot msg)
          | anthropic =>
            simp [generateDiagramWithAI, buildRequest, hk, hp, hfetch,
              he] at hout
          | gemini =>
            simp [generateDiagramWithAI, buildRequest, hk, hp, hfetch,
              he] at hout
          | openrouter =>
            simp [generateDiagramWithAI, buildRequest, hk, hp, hfetch,
              he] at hout

/-- C5 witness: an HTTP 401 failure on the buffered anthropic path
leaves the source untouched. -/
theorem nonstream_failure_preserves_source_witness :
    (generateDiagramWithAI .anthropic "sk-1" none
      ⟨.httpError 401 (some "bad key"), fun _ => none⟩
      ⟨"keep me", "a flowchart", ⟨false, ""⟩⟩).1.mermaidCode = "keep me" :=
  nonstream_failure_preserves_source .anthropic "sk-1" none
    ⟨.httpError 401 (some "bad key"), fun _ => none⟩
    ⟨"keep me", "a flowchart", ⟨false, ""⟩⟩
    (.apiError 401 "bad key") (by decide) (fun _ h => nomatch h)

/-- C5 counterexample: in streaming mode (openai), a transport failure
after one delivered delta ends in a GenerationError, yet the diagram
source has been overwritten with the partial accumulation `"graph TD"`
and no longer equals its pre-call value `"old code"`. -/
theorem stream_failure_mutates_source :
    ((generateDiagramWithAI .openai "sk-1" none
      ⟨.success (some ⟨[["data: x"]], .readError "network lost"⟩) none,
        fun s => if s = "x" then some "graph TD" else none⟩
      ⟨"old code", "a flowchart", ⟨false, ""⟩⟩).2
      = .errored (.streamReadFailed "network lost")) ∧
    ((generateDiagramWithAI .openai "sk-1" none
      ⟨.success (some ⟨[["data: x"]], .readError "network lost"⟩) none,
        fun s => if s = "x" then some "graph TD" else none⟩
      ⟨"old code", "a flowchart", ⟨false, ""⟩⟩).1.mermaidCode
      = "graph TD") ∧
    ("graph TD" : String) ≠ "old code" := by
  refine ⟨rfl, rfl, by decide⟩

/-- C6: evaluating the request construction at the failing input —
provider gemini, non-blank prompt `"flowchart for login"` — the body's
only textual payload is the bare newline `"\n"`: it contains neither
the fixed system instruction nor the prompt, while the other three
providers' bodies contain both. -/
theorem gemini_body_omits_prompts :
    (bodyMentions (buildRequest .gemini "sk-1" "flowchart for login").body
        systemPrompt = false ∧
      bodyMentions (buildRequest .gemini "sk-1" "flowchart for login").body
        "flowchart for login" = false ∧
      bodyTexts (buildRequest .gemini "sk-1" "flowchart for login").body
        = ["\n"]) ∧
    (bodyMentions (buildRequest .openai "sk-1" "flowchart for login").body
        systemPrompt = true ∧
      bodyMentions (buildRequest .openai "sk-1" "flowchart for login").body
        "flowchart for login" = true) ∧
    (bodyMentions (buildRequest .anthropic "sk-1" "flowchart for login").body
        systemPrompt = true ∧
      bodyMentions (buildRequest .anthropic "sk-1" "flowchart for login").body
        "flowchart for login" = true) ∧
    (bodyMentions (buildRequest .openrouter "sk-1" "flowchart for login").body
        systemPrompt = true ∧
      bodyMentions (buildRequest .openrouter "sk-1" "flowchart for login").body
        "flowchart for login" = true) := by
  set_option maxRecDepth 20000 in decide

/-- C7 (amended: the empty-completion check exists only on the buffered
path — every provider except openai, or openai when the response has no
body stream; there the generation fails with the empty-completion error
and the source is unchanged.  The streaming path performs no such
check). -/
theorem buffered_empty_completion_fails (provider : Provider)
    (apiKey : String) (promptOverride : Option String)
    (streamBody : Option StreamBody) (extracted : Option String)
    (pd : String → Option String) (st : GenState)
    (hkey : jsTrim apiKey ≠ "")
    (hprompt : jsTrim (promptOverride.getD st.aiPrompt) ≠ "")
    (hbuf : provider ≠ .openai ∨ streamBody = none)
    (hempty : parsedText extracted = "") :
    ((generateDiagramWithAI provider apiKey promptOverride
        ⟨.success streamBody extracted, pd⟩ st).2
      = .errored .noCodeGenerated) ∧
    ((generateDiagramWithAI provider apiKey promptOverride
        ⟨.success streamBody extracted, pd⟩ st).1.mermaidCode
      = st.mermaidCode) := by
  cases provider
  case openai =>
    rcases hbuf with h | h
    · exact absurd rfl h
    · subst h
      simp [generateDiagramWithAI, buildRequest, hkey, hprompt, hempty,
        applyCatch]
  all_goals
    simp [generateDiagramWithAI, buildRequest, hkey, hprompt, hempty,
      applyCatch]

/-- C7 witness: a whitespace-only anthropic completion trims to empty
and the call fails with the empty-completion error, source unchanged. -/
theorem buffered_empty_completion_fails_witness :
    ((generateDiagramWithAI .anthropic "sk-1" none
        ⟨.success none (some "   "), fun _ => none⟩
        ⟨"old code", "a flowchart", ⟨false, ""⟩⟩).2
      = .errored .noCodeGenerated) ∧
    ((generateDiagramWithAI .anthropic "sk-1" none
        ⟨.success none (some "   "), fun _ => none⟩
        ⟨"old code", "a flowchart", ⟨false, ""⟩⟩).1.mermaidCode
      = "old code") :=
  buffered_empty_completion_fails .anthropic "sk-1" none none (some "   ")
    (fun _ => none) ⟨"old code", "a flowchart", ⟨false, ""⟩⟩
    (by decide) (by decide) (Or.inl (by decide)) (by decide)

/-- C7 counterexample: on the streaming path (openai), a stream that
delivers no completion text at all (a single `data: [DONE]` record)
ends in success — no empty-completion failure is raised, contradicting
the claim for the streaming response mode. -/
theorem stream_empty_completion_succeeds :
    ((generateDiagramWithAI .openai "sk-1" none
        ⟨.success (some ⟨[["data: [DONE]"]], .done⟩) none, fun _ => none⟩
        ⟨"old code", "a flowchart", ⟨false, ""⟩⟩).2 = .succeeded) ∧
    ((generateDiagramWithAI .openai "sk-1" none
        ⟨.success (some ⟨[["data: [DONE]"]], .done⟩) none, fun _ => none⟩
        ⟨"old code", "a flowchart", ⟨false, ""⟩⟩).1.mermaidCode
      = "old code") := by
  refine ⟨rfl, rfl⟩

/-! ### Injectivity of the render-target identifier -/

theorem natDigits_lt (n : Nat) (h : n < 10) :
    natDigits n = [Nat.digitChar n] := by
  rw [natDigits]
  exact dif_pos h

theorem natDigits_ge (n : Nat) (h : ¬ n < 10) :
    natDigits n = natDigits (n / 10) ++ [Nat.digitChar (n % 10)] := by
  conv_lhs => rw [natDigits]
  exact dif_neg h

theorem natDigits_ne_nil (n : Nat) : natDigits n ≠ [] := by
  by_cases h : n < 10
  · rw [natDigits_lt n h]
    simp
  · rw [natDigits_ge n h]
    simp

theorem digitChar_injOn :
    ∀ a, a < 10 → ∀ b, b < 10 →
      Nat.digitChar a = Nat.digitChar b → a = b := by
  decide

theorem natDigits_injective :
    ∀ n m : Nat, natDigits n = natDigits m → n = m := by
  intro n
  induction n using Nat.strong_induction_on with
  | _ n ih =>
    intro m h
    by_cases hn : n < 10 <;> by_cases hm : m < 10
    · exact digitChar_injOn n hn m hm
        (by simpa [natDigits_lt n hn, natDigits_lt m hm] using h)
    · exfalso
      rw [natDigits_lt n hn, natDigits_ge m hm] at h
      have hlen := congrArg List.length h
      simp only [List.length_append, List.length_cons,
        List.length_nil] at hlen
      exact natDigits_ne_nil (m / 10) (List.length_eq_zero.mp (by omega))
    · exfalso
      rw [natDigits_ge n hn, natDigits_lt m hm] at h
      have hlen := congrArg List.length h
      simp only [List.length_append, List.length_cons,
        List.length_nil] at hlen
      exact natDigits_ne_nil (n / 10) (List.length_eq_zero.mp (by omega))
    · rw [natDigits_ge n hn, natDigits_ge m hm] at h
      obtain ⟨h1, h2⟩ := List.append_inj' h rfl
      have hd : n / 10 = m / 10 :=
        ih (n / 10) (Nat.div_lt_self (by omega) (by omega)) (m / 10) h1
      have hc : n % 10 = m % 10 :=
        digitChar_injOn _ (Nat.mod_lt n (by omega)) _
          (Nat.mod_lt m (by omega)) (by simpa using h2)
      omega

theorem toDigitsCore_eq_natDigits :
    ∀ (fuel n : Nat) (acc : List Char), n < fuel →
      Nat.toDigitsCore 10 fuel n acc = natDigits n ++ acc := by
  intro fuel
  induction fuel with
  | zero => intro n acc h; exact absurd h (by omega)
  | succ fuel ih =>
    intro n acc h
    by_cases h10 : n < 10
    · have hdiv : n / 10 = 0 := Nat.div_eq_of_lt h10
      simp only [Nat.toDigitsCore]
      rw [if_pos hdiv, natDigits_lt n h10, Nat.mod_eq_of_lt h10]
      rfl
    · have hne : n / 10 ≠ 0 := by omega
      have hlt : n / 10 < fuel := by
        have : n / 10 < n := Nat.div_lt_self (by omega) (by omega)
        omega
      simp only [Nat.toDigitsCore]
      rw [if_neg hne, ih (n / 10) _ hlt, natDigits_ge n h10,
        List.append_assoc]
      rfl

theorem repr_eq_natDigits (n : Nat) :
    Nat.repr n = String.mk (natDigits n) := by
  unfold Nat.repr Nat.toDigits
  rw [toDigitsCore_eq_natDigits (n + 1) n [] (Nat.lt_succ_self n)]
  simp [List.asString]

/-- The time-based render-target identifier is injective in the clock
reading. -/
theorem mkDiagramId_injective :
    ∀ a b : Nat, mkDiagramId a = mkDiagramId b → a = b := by
  intro a b h
  have h2 : (Nat.repr a).data = (Nat.repr b).data := by
    have := congrArg String.data h
    simpa [mkDiagramId, String.data_append] using this
  have h3 : natDigits a = natDigits b := by
    have hs := String.ext h2
    rw [repr_eq_natDigits, repr_eq_natDigits] at hs
    injection hs
  exact natDigits_injective a b h3

/-- Invariant of the debounce loop: the fire times of the recorded
renderer calls increase strictly, stay below the pending deadline, and
the pending deadline tracks the last edit time — provided the edits
arrive in time order. -/
theorem runEdits_calls_mono (edits : List (Nat × String)) :
    ∀ (tp : Nat) (s : String) (calls : List (Nat × String)),
      List.Pairwise (· ≤ ·) (edits.map Prod.fst) →
      (∀ e ∈ edits, tp ≤ e.1) →
      List.Pairwise (· < ·) (calls.map Prod.fst) →
      (∀ c ∈ calls, c.1 < tp + 300) →
      ∃ tl sl,
        tp ≤ tl ∧
        (runEdits ⟨some (tp + 300, s), calls⟩ edits).pending
          = some (tl + 300, sl) ∧
        List.Pairwise (· < ·)
          ((runEdits ⟨some (tp + 300, s), calls⟩ edits).calls.map
            Prod.fst) ∧
        ∀ c ∈ (runEdits ⟨some (tp + 300, s), calls⟩ edits).calls,
          c.1 < tl + 300 := by
  induction edits with
  | nil =>
    intro tp s calls _ _ hpw hbd
    exact ⟨tp, s, le_refl tp, rfl, hpw, hbd⟩
  | cons e rest ih =>
    obtain ⟨t, s'⟩ := e
    intro tp s calls hmono hge hpw hbd
    rw [List.map_cons, List.pairwise_cons] at hmono
    obtain ⟨hthead, hmrest⟩ := hmono
    have htp : tp ≤ t := hge (t, s') (by simp)
    have hgerest : ∀ e ∈ rest, t ≤ e.1 := by
      intro e he
      exact hthead e.1 (List.mem_map_of_mem Prod.fst he)
    rw [runEdits]
    by_cases hfire : tp + 300 ≤ t
    · by_cases hb : jsTrim s = ""
      · have happ : applyEdit ⟨some (tp + 300, s), calls⟩ t s'
            = ⟨some (t + 300, s'), calls⟩ := by
          simp [applyEdit, fireIfDue, hfire, hb]
        rw [happ]
        obtain ⟨tl, sl, hle, hpd, hw, hbd'⟩ :=
          ih t s' calls hmrest hgerest hpw
            (fun c hc => by have := hbd c hc; omega)
        exact ⟨tl, sl, le_trans htp hle, hpd, hw, hbd'⟩
      · have happ : applyEdit ⟨some (tp + 300, s), calls⟩ t s'
            = ⟨some (t + 300, s'), calls ++ [(tp + 300, s)]⟩ := by
          simp [applyEdit, fireIfDue, hfire, hb]
        rw [happ]
        have hpw' : List.Pairwise (· < ·)
            ((calls ++ [(tp + 300, s)]).map Prod.fst) := by
          rw [List.map_append, List.pairwise_append]
          refine ⟨hpw, by simp, ?_⟩
          intro a ha b hb'
          simp at hb'
          subst hb'
          obtain ⟨c, hc, rfl⟩ := List.mem_map.mp ha
          exact hbd c hc
        have hbd'' : ∀ c ∈ calls ++ [(tp + 300, s)], c.1 < t + 300 := by
          intro c hc
          rcases List.mem_append.mp hc with hc | hc
          · have := hbd c hc; omega
          · simp at hc; subst hc; simp; omega
        obtain ⟨tl, sl, hle, hpd, hw, hbd'⟩ :=
          ih t s' (calls ++ [(tp + 300, s)]) hmrest hgerest hpw' hbd''
        exact ⟨tl, sl, le_trans htp hle, hpd, hw, hbd'⟩
    · have happ : applyEdit ⟨some (tp + 300, s), calls⟩ t s'
          = ⟨some (t + 300, s'), calls⟩ := by
        simp [applyEdit, fireIfDue, hfire]
      rw [happ]
      obtain ⟨tl, sl, hle, hpd, hw, hbd'⟩ :=
        ih t s' calls hmrest hgerest hpw
          (fun c hc => by have := hbd c hc; omega)
      exact ⟨tl, sl, le_trans htp hle, hpd, hw, hbd'⟩

/-- C10 (confirmed): in any session whose edit events arrive in time
order, the render-target identifiers passed to the external renderer
are pairwise distinct — the 300 ms debounce separates any two actual
renderer calls, so their millisecond clock readings differ and the
time-based identifiers are fresh across the whole session. -/
theorem renderTargetIds_unique (edits : List (Nat × String)) (tEnd : Nat)
    (hmono : List.Pairwise (· ≤ ·) (edits.map Prod.fst)) :
    List.Pairwise (· ≠ ·)
      ((runSession edits tEnd).calls.map fun c => mkDiagramId c.1) := by
  have key : List.Pairwise (fun a b : Nat × String => a.1 < b.1)
      (runSession edits tEnd).calls := by
    cases edits with
    | nil => simp [runSession, runEdits, fireIfDue]
    | cons e rest =>
      obtain ⟨t1, s1⟩ := e
      rw [List.map_cons, List.pairwise_cons] at hmono
      obtain ⟨hthead, hmrest⟩ := hmono
      have hge : ∀ e ∈ rest, t1 ≤ e.1 := by
        intro e he
        exact hthead e.1 (List.mem_map_of_mem Prod.fst he)
      obtain ⟨tl, sl, _, hpd, hw, hbd⟩ :=
        runEdits_calls_mono rest t1 s1 [] hmrest hge (by simp) (by simp)
      have h0 : runSession ((t1, s1) :: rest) tEnd
          = fireIfDue (runEdits ⟨some (t1 + 300, s1), []⟩ rest) tEnd := rfl
      rw [h0]
      simp only [fireIfDue, hpd]
      by_cases hdue : tl + 300 ≤ tEnd
      · rw [if_pos hdue]
        by_cases hb : jsTrim sl = ""
        · rw [if_pos hb]
          simpa using List.pairwise_map.mp hw
        · rw [if_neg hb]
          simp only
          rw [List.pairwise_append]
          refine ⟨List.pairwise_map.mp hw, by simp, ?_⟩
          intro a ha b hb'
          simp at hb'
          subst hb'
          simpa using hbd a ha
      · rw [if_neg hdue]
        exact List.pairwise_map.mp hw
  rw [List.pairwise_map]
  exact key.imp fun hab heq =>
    absurd (mkDiagramId_injective _ _ heq) (by omega)

/-- C10 witness: two edits 400 ms apart both render, with distinct
identifiers built from the distinct fire times. -/
theorem renderTargetIds_unique_witness :
    List.Pairwise (· ≠ ·)
      ((runSession [(0, "graph TD"), (400, "graph LR")] 10000).calls.map
        fun c => mkDiagramId c.1) :=
  renderTargetIds_unique [(0, "graph TD"), (400, "graph LR")] 10000
    (by decide)

end Mermaideer

